import Mathlib

/-!
# Verification development for the thp-ocr extraction pipeline

Shallow embedding of the image-to-text extraction pipeline of the
`thp-ocr` TypeScript library (`src/thp-ocr-js`): source resolution
(`Ocr.loadImageBase64`), base64 encoding (`Buffer.toString("base64")`),
prompt construction (`getOCRPromptMessages` / `Prompts.OCR`), the
provider call (`Ocr.aiOCR`) and format-specific decoding (`Ocr.extract`,
with `JSON.parse` for the `json` format).

External effects (URL detection, the network fetch, the file read, the
presence of credentials, and the provider's reply) are modelled as an
explicit environment record; the pipeline logic itself is translated
line by line from `ocr.ts`.
-/

set_option maxRecDepth 4000

/-! ## JavaScript values produced by `JSON.parse`

A parsed JSON value as a JavaScript value.  Numbers are kept as their
source lexeme (the embedding does not model IEEE-754 conversion of
numeric literals); `\uXXXX` escapes are decoded per code unit without
surrogate pairing.  Neither idealization affects which strings parse
successfully. -/

inductive JsValue where
  | vnull
  | vbool (b : Bool)
  | vnum (lexeme : String)
  | vstr (s : String)
  | varr (elems : List JsValue)
  | vobj (fields : List (String × JsValue))

/-- Tokens of the JSON grammar recognised by `JSON.parse`. -/
inductive JToken where
  | lbrace | rbrace | lbrack | rbrack | colon | comma
  | jstr (s : String)
  | jnum (lexeme : String)
  | jtrue | jfalse | jnull

/-- The `"` character (written via its code point to keep string
literals free of nested quotes in patterns). -/
def quoteChar : Char := Char.ofNat 34

/-- The `\` character. -/
def backslashChar : Char := Char.ofNat 92

/-- The opening curly brace character. -/
def lbraceChar : Char := Char.ofNat 123

/-- The closing curly brace character. -/
def rbraceChar : Char := Char.ofNat 125

/-- JSON insignificant whitespace: space, tab, line feed, carriage return. -/
def isJsonWs (c : Char) : Bool :=
  c = ' ' || c = '\t' || c = '\n' || c = Char.ofNat 13

/-- Hexadecimal digit test for `\uXXXX` escapes. -/
def isHexDigitChar (c : Char) : Bool :=
  c.isDigit || ('a' ≤ c && c ≤ 'f') || ('A' ≤ c && c ≤ 'F')

/-- Value of a hexadecimal digit. -/
def hexVal (c : Char) : Nat :=
  if c.isDigit then c.toNat - 48
  else if 'a' ≤ c && c ≤ 'f' then c.toNat - 87
  else c.toNat - 55

/-- Lex the body of a JSON string (the opening quote already consumed),
accumulating decoded characters in reverse.  Returns the decoded string
and the remaining input, or `none` on a malformed string (unterminated,
bad escape, or a raw control character). -/
def lexJString (acc : List Char) : List Char → Option (String × List Char)
  | [] => none
  | c :: rest =>
    if c = quoteChar then some (String.mk acc.reverse, rest)
    else if c = backslashChar then
      match rest with
      | [] => none
      | e :: rest2 =>
        if e = quoteChar then lexJString (quoteChar :: acc) rest2
        else if e = backslashChar then lexJString (backslashChar :: acc) rest2
        else if e = '/' then lexJString ('/' :: acc) rest2
        else if e = 'b' then lexJString (Char.ofNat 8 :: acc) rest2
        else if e = 'f' then lexJString (Char.ofNat 12 :: acc) rest2
        else if e = 'n' then lexJString ('\n' :: acc) rest2
        else if e = 'r' then lexJString (Char.ofNat 13 :: acc) rest2
        else if e = 't' then lexJString ('\t' :: acc) rest2
        else if e = 'u' then
          match rest2 with
          | h1 :: h2 :: h3 :: h4 :: rest3 =>
            if isHexDigitChar h1 && isHexDigitChar h2 && isHexDigitChar h3 &&
                isHexDigitChar h4 then
              lexJString
                (Char.ofNat
                  (((hexVal h1 * 16 + hexVal h2) * 16 + hexVal h3) * 16 + hexVal h4)
                  :: acc) rest3
            else none
          | _ => none
        else none
    else if c.toNat < 32 then none
    else lexJString (c :: acc) rest

/-- Take a maximal (possibly empty) run of decimal digits. -/
def takeDigits : List Char → List Char × List Char
  | [] => ([], [])
  | c :: rest =>
    if c.isDigit then
      let (ds, r) := takeDigits rest
      (c :: ds, r)
    else ([], c :: rest)

/-- Lex an optional fraction part `.digits` of a JSON number. -/
def lexFracPart : List Char → Option (List Char × List Char)
  | [] => some ([], [])
  | c :: rest =>
    if c = '.' then
      match rest with
      | d :: _ =>
        if d.isDigit then
          let (ds, r) := takeDigits rest
          some ('.' :: ds, r)
        else none
      | [] => none
    else some ([], c :: rest)

/-- Lex an optional exponent part `[eE][+-]?digits` of a JSON number. -/
def lexExpPart : List Char → Option (List Char × List Char)
  | [] => some ([], [])
  | c :: rest =>
    if c = 'e' || c = 'E' then
      let (sign, rest2) :=
        match rest with
        | s :: r => if s = '+' || s = '-' then ([s], r) else (([] : List Char), s :: r)
        | [] => (([] : List Char), ([] : List Char))
      match rest2 with
      | d :: _ =>
        if d.isDigit then
          let (ds, r3) := takeDigits rest2
          some (c :: (sign ++ ds), r3)
        else none
      | [] => none
    else some ([], c :: rest)

/-- Lex a JSON number starting at the current position (grammar
`-?(0|[1-9][0-9]*)(.[0-9]+)?([eE][+-]?[0-9]+)?`), returning its lexeme. -/
def lexJNumber (cs : List Char) : Option (String × List Char) :=
  let (sign, cs1) :=
    match cs with
    | c :: r => if c = '-' then (['-'], r) else (([] : List Char), c :: r)
    | [] => (([] : List Char), ([] : List Char))
  match cs1 with
  | [] => none
  | c :: rest =>
    let intRes : Option (List Char × List Char) :=
      if c = '0' then some (['0'], rest)
      else if c.isDigit then
        let (ds, r) := takeDigits rest
        some (c :: ds, r)
      else none
    match intRes with
    | none => none
    | some (ip, r1) =>
      match lexFracPart r1 with
      | none => none
      | some (fp, r2) =>
        match lexExpPart r2 with
        | none => none
        | some (ep, r3) => some (String.mk (sign ++ ip ++ fp ++ ep), r3)

/-- Tokenize a JSON text.  `fuel` bounds the number of tokens (the input
length suffices since every step consumes at least one character). -/
def jsonTokenize : Nat → List Char → Option (List JToken)
  | _, [] => some []
  | 0, _ :: _ => none
  | fuel + 1, c :: cs =>
    if isJsonWs c then jsonTokenize fuel cs
    else if c = lbraceChar then (jsonTokenize fuel cs).map (JToken.lbrace :: ·)
    else if c = rbraceChar then (jsonTokenize fuel cs).map (JToken.rbrace :: ·)
    else if c = '[' then (jsonTokenize fuel cs).map (JToken.lbrack :: ·)
    else if c = ']' then (jsonTokenize fuel cs).map (JToken.rbrack :: ·)
    else if c = ':' then (jsonTokenize fuel cs).map (JToken.colon :: ·)
    else if c = ',' then (jsonTokenize fuel cs).map (JToken.comma :: ·)
    else if c = quoteChar then
      match lexJString [] cs with
      | some (s0, rest) => (jsonTokenize fuel rest).map (JToken.jstr s0 :: ·)
      | none => none
    else if c = '-' || c.isDigit then
      match lexJNumber (c :: cs) with
      | some (lexeme, rest) => (jsonTokenize fuel rest).map (JToken.jnum lexeme :: ·)
      | none => none
    else
      match c :: cs with
      | 'n' :: 'u' :: 'l' :: 'l' :: rest => (jsonTokenize fuel rest).map (JToken.jnull :: ·)
      | 't' :: 'r' :: 'u' :: 'e' :: rest => (jsonTokenize fuel rest).map (JToken.jtrue :: ·)
      | 'f' :: 'a' :: 'l' :: 's' :: 'e' :: rest => (jsonTokenize fuel rest).map (JToken.jfalse :: ·)
      | _ => none

/-- Insert a key/value pair into an object under construction with
JavaScript semantics: a duplicate key keeps its original position and is
overwritten with the new value, a fresh key is appended. -/
def objInsert : List (String × JsValue) → String → JsValue → List (String × JsValue)
  | [], k, v => [(k, v)]
  | (k2, v2) :: rest, k, v =>
    if k2 = k then (k, v) :: rest else (k2, v2) :: objInsert rest k v

/-- A partially built container on the parser stack: an array with its
elements so far (in reverse), or an object with its fields so far and
the key currently awaiting a value. -/
inductive JCtx where
  | arrCtx (elems : List JsValue)
  | objCtx (fields : List (String × JsValue)) (pendingKey : Option String)

/-- Parser phase: what the next token may be.  `expectVal true` /
`expectKey true` arise immediately after an opening bracket, where the
matching closing bracket is also legal. -/
inductive JPhase where
  | expectVal (allowClose : Bool)
  | expectKey (allowClose : Bool)
  | expectColon
  | afterVal
  | topDone (v : JsValue)
  | pfail

/-- A completed value is pushed into the enclosing context (or becomes
the final result when the stack is empty). -/
def pushValue (v : JsValue) : List JCtx → JPhase × List JCtx
  | [] => (JPhase.topDone v, [])
  | JCtx.arrCtx elems :: rest => (JPhase.afterVal, JCtx.arrCtx (v :: elems) :: rest)
  | JCtx.objCtx fields (some k) :: rest =>
    (JPhase.afterVal, JCtx.objCtx (objInsert fields k v) none :: rest)
  | JCtx.objCtx fields none :: rest => (JPhase.pfail, JCtx.objCtx fields none :: rest)

/-- Shift-reduce recogniser for the JSON grammar, one token per step. -/
def parseTokens : List JToken → JPhase → List JCtx → Option JsValue
  | [], JPhase.topDone v, [] => some v
  | [], _, _ => none
  | _ :: _, JPhase.topDone _, _ => none
  | _ :: _, JPhase.pfail, _ => none
  | t :: ts, JPhase.expectVal allowClose, stack =>
    match t with
    | JToken.jnull => let (p, s) := pushValue JsValue.vnull stack; parseTokens ts p s
    | JToken.jtrue => let (p, s) := pushValue (JsValue.vbool true) stack; parseTokens ts p s
    | JToken.jfalse => let (p, s) := pushValue (JsValue.vbool false) stack; parseTokens ts p s
    | JToken.jstr s0 => let (p, s) := pushValue (JsValue.vstr s0) stack; parseTokens ts p s
    | JToken.jnum x => let (p, s) := pushValue (JsValue.vnum x) stack; parseTokens ts p s
    | JToken.lbrack => parseTokens ts (JPhase.expectVal true) (JCtx.arrCtx [] :: stack)
    | JToken.lbrace => parseTokens ts (JPhase.expectKey true) (JCtx.objCtx [] none :: stack)
    | JToken.rbrack =>
      if allowClose then
        match stack with
        | JCtx.arrCtx elems :: rest =>
          let (p, s) := pushValue (JsValue.varr elems.reverse) rest
          parseTokens ts p s
        | _ => none
      else none
    | _ => none
  | t :: ts, JPhase.expectKey allowClose, stack =>
    match t with
    | JToken.jstr k =>
      match stack with
      | JCtx.objCtx fields none :: rest =>
        parseTokens ts JPhase.expectColon (JCtx.objCtx fields (some k) :: rest)
      | _ => none
    | JToken.rbrace =>
      if allowClose then
        match stack with
        | JCtx.objCtx fields none :: rest =>
          let (p, s) := pushValue (JsValue.vobj fields) rest
          parseTokens ts p s
        | _ => none
      else none
    | _ => none
  | t :: ts, JPhase.expectColon, stack =>
    match t with
    | JToken.colon => parseTokens ts (JPhase.expectVal false) stack
    | _ => none
  | t :: ts, JPhase.afterVal, stack =>
    match stack with
    | JCtx.arrCtx elems :: rest =>
      match t with
      | JToken.comma => parseTokens ts (JPhase.expectVal false) (JCtx.arrCtx elems :: rest)
      | JToken.rbrack =>
        let (p, s) := pushValue (JsValue.varr elems.reverse) rest
        parseTokens ts p s
      | _ => none
    | JCtx.objCtx fields none :: rest =>
      match t with
      | JToken.comma => parseTokens ts (JPhase.expectKey false) (JCtx.objCtx fields none :: rest)
      | JToken.rbrace =>
        let (p, s) := pushValue (JsValue.vobj fields) rest
        parseTokens ts p s
      | _ => none
    | _ => none

/-- The embedding of ECMAScript `JSON.parse` as a partial function:
`some v` on a syntactically valid JSON text (with decoded value `v`),
`none` where `JSON.parse` would throw a `SyntaxError`. -/
def jsonParse (s : String) : Option JsValue :=
  match jsonTokenize s.length s.toList with
  | some ts => parseTokens ts (JPhase.expectVal false) []
  | none => none


/-! ## Base64 (the `Encoder`: `Buffer.toString("base64")` in
`Ocr.loadImageBase64`)

Standard base64 with padding, as produced by Node's
`Buffer.toString("base64")`.  Bytes are naturals below 256. -/

/-- The base64 alphabet. -/
def base64Alphabet : List Char :=
  "ABCDEFGHIJKLMNOPQRSTUVWXYZabcdefghijklmnopqrstuvwxyz0123456789+/".toList

/-- Character for a 6-bit group. -/
def b64Char (n : Nat) : Char := base64Alphabet.getD n 'A'

/-- Index of a character in the base64 alphabet (0 if absent). -/
def b64ValAux : List Char → Char → Nat
  | [], _ => 0
  | a :: rest, c => if a = c then 0 else b64ValAux rest c + 1

/-- Inverse of `b64Char` on the alphabet. -/
def b64Val (c : Char) : Nat := b64ValAux base64Alphabet c

/-- Base64-encode a byte list, three bytes to four characters, with
`=` padding on a trailing partial group. -/
def base64EncodeList : List Nat → List Char
  | [] => []
  | [b0] =>
    [b64Char (b0 / 4), b64Char (b0 % 4 * 16), '=', '=']
  | [b0, b1] =>
    [b64Char (b0 / 4), b64Char (b0 % 4 * 16 + b1 / 16), b64Char (b1 % 16 * 4), '=']
  | b0 :: b1 :: b2 :: rest =>
    b64Char (b0 / 4) :: b64Char (b0 % 4 * 16 + b1 / 16) ::
      b64Char (b1 % 16 * 4 + b2 / 64) :: b64Char (b2 % 64) :: base64EncodeList rest

/-- The `Encoder` of the pipeline: bytes to their base64 string. -/
def base64Encode (bytes : List Nat) : String := String.mk (base64EncodeList bytes)

/-- Base64-decode four characters at a time, honouring `=` padding. -/
def base64DecodeList : List Char → List Nat
  | c0 :: c1 :: c2 :: c3 :: rest =>
    if c2 = '=' then [b64Val c0 * 4 + b64Val c1 / 16]
    else if c3 = '=' then
      [b64Val c0 * 4 + b64Val c1 / 16, b64Val c1 % 16 * 16 + b64Val c2 / 4]
    else
      (b64Val c0 * 4 + b64Val c1 / 16) :: (b64Val c1 % 16 * 16 + b64Val c2 / 4) ::
        (b64Val c2 % 4 * 64 + b64Val c3) :: base64DecodeList rest
  | _ => []

/-- Base64 decoding of an encoded string. -/
def base64Decode (s : String) : List Nat := base64DecodeList s.toList


/-! ## Output formats and prompt construction (`models.ts`, `prompts.ts`) -/

/-- `type OcrFormat = "json" | "markdown" | "text"` from `models.ts`. -/
inductive OcrFormat where
  | json | markdown | text
deriving DecidableEq

/-- The string carried by an `OcrFormat` value (the TypeScript type is a
union of string literals; the user prompt interpolates it). -/
def ocrFormatString : OcrFormat → String
  | OcrFormat.json => "json"
  | OcrFormat.markdown => "markdown"
  | OcrFormat.text => "text"

/-- A part of a `user` message: instructional text or an embedded image
(`{ type: "text", text }` / `{ type: "image", image }` in `prompts.ts`). -/
inductive ContentPart where
  | text (s : String)
  | image (base64 : String)

/-- Content of a `CoreMessage`: a plain string or a list of parts. -/
inductive MessageContent where
  | text (s : String)
  | parts (ps : List ContentPart)

/-- A message of the provider request (`CoreMessage` of the `ai` SDK):
a role and some content. -/
structure CoreMessage where
  role : String
  content : MessageContent

/-- The fixed system instruction of `Prompts.OCR` (`prompts.ts`): the
format-agnostic extraction rules.  It does not mention the requested
output format. -/
def Prompts.OCR.system : String :=
  "You are THP-OCR Agent, an advanced AI specializing in highly accurate optical character recognition (OCR). Your mission is to extract text from images with precision, ensuring clarity, consistency, and adherence to user-defined formats. Handle a variety of cases and scenarios as follows:\n\n" ++
  "- **Hierarchical Text**: Maintain the hierarchy of headers and subheaders for structured documents. For example:\n" ++
  "  - Markdown: Use `#`, `##`, `###` for headings.\n" ++
  "  - JSON: Structure content as nested keys:\n" ++
  "    `\x7b \"header\": \"Title\", \"content\": \"Paragraph text here.\" \x7d`\n" ++
  "- **Tables**: Extract tabular data while preserving rows and columns. Examples:\n" ++
  "  - JSON: `\x7b \"table\": [[ \"Header1\", \"Header2\" ], [ \"Data1\", \"Data2\" ]] \x7d`\n" ++
  "  - Markdown:\n" ++
  "    ```markdown\n" ++
  "    | Header1 | Header2 |\n" ++
  "    |---------|---------|\n" ++
  "    | Data1   | Data2   |\n" ++
  "    ```\n" ++
  "- **Error Handling**: If content cannot be extracted, return a structured error message:\n" ++
  "  `\x7b \"error\": \"Content not extractable\", \"reason\": \"Low image quality\" \x7d`. Use a flag to indicate success or failure of the extraction.\n" ++
  "- **Numbers and Dates**: Extract numerical data and special formats precisely:\n" ++
  "  - Maintain separators (e.g., `1,234.56 USD`).\n" ++
  "  - Preserve consistent date formats (e.g., `YYYY-MM-DD`).\n" ++
  "- **Minimal Errors**: Minimize minor errors like typos or small inconsistencies. Focus on accurate transcription even for challenging input.\n" ++
  "- **Visual Context**: Annotate text associated with visual elements like captions or labels. Examples:\n" ++
  "  - JSON: `\x7b \"caption\": \"Label below chart\", \"text\": \"Data overview\" \x7d`\n" ++
  "  - Markdown: `[caption: Label below chart]`\n" ++
  "- **Context-Aware Extraction**: Prioritize bold or highlighted text that appears significant, such as headings or key points. Annotate it if necessary.\n" ++
  "- **Images with Embedded Text**: Recognize and capture text embedded in diagrams or icons. If overlapping visuals obscure text, use placeholders like `[text partially obscured]`.\n" ++
  "- **Handwritten Text**: Accurately transcribe handwritten text. Use `[unclear]` for illegible sections.\n" ++
  "- **Rotated or Skewed Text**: Correct rotated or skewed text where possible. Use placeholders for unreadable rotated text (e.g., `[rotated text illegible]`).\n" ++
  "- **Complex Layouts**: Handle multi-column documents, nested tables, or overlapping content. Differentiate columns using keys like `\"column1\": [...]`, `\"column2\": [...]` in JSON.\n" ++
  "- **Confidence Scores**: Include confidence scores for extracted text when possible. Example:\n" ++
  "  `\x7b \"text\": \"Extracted content\", \"confidence\": 0.85 \x7d`.\n" ++
  "- **Streamlined JSON Validation**: Ensure extracted JSON content is validated for schema compliance before responding.\n" ++
  "- **Customizable Output Preferences**: Allow user-defined preferences, such as ignoring handwritten text or focusing only on specific sections (e.g., headers and tables).\n" ++
  "- **Handling Special Fonts**: For decorative or non-standard fonts, use placeholders like `[decorative font text]` if text is unclear.\n" ++
  "- **Noise Filtering**: Ignore noise such as faint watermarks, stray marks, or artifacts unless explicitly requested by the user.\n" ++
  "- **Mixed Formats**: Preserve the format of different content types distinctly:\n" ++
  "  - Tables should remain tabular.\n" ++
  "  - Bullet points and paragraphs should retain their structure.\n" ++
  "- **Multilingual Text**: Preserve the original script and annotate mixed-language content with language codes (e.g., `[en] This is English. [es] Esto es Español.`).\n" ++
  "- **Inline Examples for Mixed Content**: For scenarios with a mix of content types (e.g., tables, captions, and paragraphs), use examples such as:\n" ++
  "    ```markdown\n" ++
  "    ## Header 1\n" ++
  "    This is a paragraph.\n\n" ++
  "    | Column 1 | Column 2 |\n" ++
  "    |----------|----------|\n" ++
  "    | Data 1   | Data 2   |\n\n" ++
  "    [caption: Image of a chart]\n" ++
  "    ```\n\n" ++
  "Ensure all outputs are valid according to the schema. Validate JSON for structural correctness and Markdown for syntax integrity. Always store the result in the \x27response\x27 field, and clearly indicate success or failure in the extraction process."

/-- Leading text of the user instruction of `Prompts.OCR`, up to the
quoted format name. -/
def Prompts.OCR.userPre : String :=
  "Extract all text from this image accurately. RESPOND IN THE "

/-- Text of the user instruction between the quoted format name and the
quoted schema field name `response`. -/
def Prompts.OCR.userMid : String :=
  " FORMAT SPECIFIED BELOW AND STORE THE RESULT IN THE "

/-- Trailing text of the user instruction, after the first mention of
the schema field `response`. -/
def Prompts.OCR.userTail : String :=
  " FIELD OF THE SCHEMA. USE THE FOLLOWING FORMATS AS DIRECTED:\n\n- **JSON**: Respond with a JSON object encapsulating the extracted content.\n- **Markdown**: Respond with a well-formatted markdown string.\n- **Text**: Respond with a plain text string.\n\nPreserve the structure and layout of the original content " ++
  "when using JSON or markdown. For example, tables should remain tabular, bullet points should be maintained, and paragraphs should be coherent. For multilingual text, use appropriate annotations. Store the response in the \x27response\x27 field according to the schema."

/-- The user instruction of `Prompts.OCR` (`prompts.ts`), parameterised
by the requested output format (the TypeScript template literal
interpolates `format` between single quotes; the split into
pre/mid/tail pieces follows the two quoted schema references). -/
def Prompts.OCR.user (format : OcrFormat) : String :=
  Prompts.OCR.userPre ++ "\x27" ++ ocrFormatString format ++ "\x27" ++
    Prompts.OCR.userMid ++ "\x27response\x27" ++ Prompts.OCR.userTail

/-- `getOCRPromptMessages` from `prompts.ts`: the system instruction,
then the user instruction followed by the embedded image. -/
def getOCRPromptMessages (imageBase64 : String) (format : OcrFormat) : List CoreMessage :=
  [ CoreMessage.mk "system" (MessageContent.text Prompts.OCR.system),
    CoreMessage.mk "user" (MessageContent.parts
      [ ContentPart.text (Prompts.OCR.user format),
        ContentPart.image imageBase64 ]) ]

/-! ## The extraction pipeline (`ocr.ts`)

`Ocr.extract` runs `loadImageBase64` (source resolution + encoding,
throwing on failure), then `aiOCR` (the provider call, collapsing any
failure to `null`), then the JavaScript falsiness check
`if (!ocrResult) return null`, then `JSON.parse` for the `json` format
and the identity otherwise.

The effectful context of one call is an `Env` record: the result of
`Common.isUrl` on the image source, the outcomes of `axios.get` and
`fs.readFile`, whether provider credentials are present in the process
environment, and the provider's reply. -/

/-- Outcome of an I/O action producing bytes (`axios.get` with
`responseType: "arraybuffer"`, or `fs.readFile`): the raw bytes, or the
failure's message. -/
inductive FetchOutcome where
  | ok (bytes : List Nat)
  | err (msg : String)

/-- The effectful context of one extraction call. `genObject` is the
outcome of `generateObject` (with the one-field `z.object({ response:
z.string() })` schema) when credentials are present: `some raw` if the
call succeeded and the payload validated, `none` on any failure. -/
structure Env where
  isUrl : Bool
  fetchResult : FetchOutcome
  readFileResult : FetchOutcome
  apiKeyPresent : Bool
  genObject : Option String

/-- Errors that escape `Ocr.extract` as exceptions.  `fetchError` and
`fileReadError` are the two `throw new Error(...)` sites of
`loadImageBase64` (the spec's `SourceUnavailable`); `jsonSyntaxError` is
the `SyntaxError` thrown by `JSON.parse` (the spec's
`MalformedStructuredOutput`). -/
inductive OcrError where
  | fetchError (msg : String)
  | fileReadError (msg : String)
  | jsonSyntaxError

/-- Observable steps of one extraction, recorded in order: the source
resolution attempt, the provider invocation (`generateObject` with its
messages), and any `JSON.parse` of a raw response. -/
inductive Event where
  | sourceResolution
  | providerCall (messages : List CoreMessage)
  | jsonDecode (raw : String)

namespace Ocr

/-- `Ocr.loadImageBase64`: resolve the image source (URL fetch or local
file read) and base64-encode the bytes; rethrow either failure with the
corresponding message prefix. -/
def loadImageBase64 (env : Env) : Except OcrError String :=
  if env.isUrl then
    match env.fetchResult with
    | FetchOutcome.ok bytes => Except.ok (base64Encode bytes)
    | FetchOutcome.err msg =>
      Except.error (OcrError.fetchError ("Failed to fetch image from URL: " ++ msg))
  else
    match env.readFileResult with
    | FetchOutcome.ok bytes => Except.ok (base64Encode bytes)
    | FetchOutcome.err msg =>
      Except.error (OcrError.fileReadError ("Failed to read local image file: " ++ msg))

/-- `Ocr.aiOCR`: invoke `generateObject` with the OCR messages and the
one-string-field schema; on success return `res.object.response`, on
any rejection (network error, provider error, schema mismatch — and in
particular missing credentials, which make the SDK call reject) return
`null`.  The messages are built from the image and format exactly as in
the source; the reply itself is supplied by the environment. -/
def aiOCR (env : Env) (imageBase64 : String) (format : OcrFormat) : Option String :=
  let _messages := getOCRPromptMessages imageBase64 format
  if env.apiKeyPresent then env.genObject else none

/-- `Ocr.extract`: the public pipeline.  Returns the final value or the
thrown error, together with the trace of observable steps. -/
def extract (env : Env) (format : OcrFormat) : Except OcrError JsValue × List Event :=
  match loadImageBase64 env with
  | Except.error e => (Except.error e, [Event.sourceResolution])
  | Except.ok imageBase64 =>
    let messages := getOCRPromptMessages imageBase64 format
    let baseEvents := [Event.sourceResolution, Event.providerCall messages]
    match aiOCR env imageBase64 format with
    | none => (Except.ok JsValue.vnull, baseEvents)
    | some ocrResult =>
      if ocrResult = "" then
        (Except.ok JsValue.vnull, baseEvents)
      else if format = OcrFormat.json then
        (match jsonParse ocrResult with
         | some v => Except.ok v
         | none => Except.error OcrError.jsonSyntaxError,
         baseEvents ++ [Event.jsonDecode ocrResult])
      else
        (Except.ok (JsValue.vstr ocrResult), baseEvents)

end Ocr

/-! ## Concrete environments used by the claim theorems -/

/-- Environment for the C1 counterexample: a local file that reads
successfully, credentials present, and a provider reply whose `response`
field is the empty string. -/
def envC1 : Env := Env.mk false (FetchOutcome.ok []) (FetchOutcome.ok [72]) true (some "")

/-- Environment for the C1 witness: the provider returns the scenario's
malformed payload `{not valid json`. -/
def envC1w : Env :=
  Env.mk false (FetchOutcome.ok []) (FetchOutcome.ok [72]) true (some "\x7bnot valid json")

/-- Environment for the C2 witness: an image URL whose fetch fails. -/
def envC2 : Env :=
  Env.mk true (FetchOutcome.err "getaddrinfo ENOTFOUND nonexistent.example")
    (FetchOutcome.ok []) true (some "hi")

/-- Environment for the C3 witness: resolution succeeds, the provider
call rejects (schema mismatch, network or provider error). -/
def envC3 : Env := Env.mk false (FetchOutcome.ok []) (FetchOutcome.ok [72]) true none

/-- Environment for C4: credentials absent from the process environment,
everything else healthy. -/
def envC4 : Env :=
  Env.mk false (FetchOutcome.ok []) (FetchOutcome.ok [72]) false (some "hello")

/-- Environment for the C5 witness: a local path whose read fails. -/
def envC5 : Env :=
  Env.mk false (FetchOutcome.ok [])
    (FetchOutcome.err "ENOENT: no such file or directory") true (some "x")

/-- Environment for the C6 counterexample: provider replies with the
empty string. -/
def envC6 : Env := Env.mk false (FetchOutcome.ok []) (FetchOutcome.ok [72]) true (some "")

/-- Environment for the C6 witness: a concrete non-empty reply. -/
def envC6w : Env :=
  Env.mk false (FetchOutcome.ok []) (FetchOutcome.ok [72]) true (some "hello world")

/-- Environment for the C9 witness. -/
def envC9 : Env := Env.mk false (FetchOutcome.ok []) (FetchOutcome.ok [72]) true (some "")

/-- Environment for the C10 witness: the provider replies with the JSON
text `null`. -/
def envC10 : Env :=
  Env.mk false (FetchOutcome.ok []) (FetchOutcome.ok [72]) true (some "null")

/-- Environment contrasting the C10 witness: the provider call fails. -/
def envC10f : Env := Env.mk false (FetchOutcome.ok []) (FetchOutcome.ok [72]) true none

/-! ## Unfolding lemmas for the pipeline -/

/-- A resolution failure makes `extract` rethrow that error with only the
resolution step in the trace. -/
theorem extract_load_error (env : Env) (fmt : OcrFormat) (e : OcrError)
    (h : Ocr.loadImageBase64 env = Except.error e) :
    Ocr.extract env fmt = (Except.error e, [Event.sourceResolution]) := by
  unfold Ocr.extract
  rw [h]

/-- With credentials present, `aiOCR` returns the `generateObject` outcome. -/
theorem aiOCR_of_key (env : Env) (b64 : String) (fmt : OcrFormat)
    (hkey : env.apiKeyPresent = true) :
    Ocr.aiOCR env b64 fmt = env.genObject := by
  unfold Ocr.aiOCR
  rw [hkey]
  rfl

/-- With credentials absent, the SDK call rejects and `aiOCR` returns `null`. -/
theorem aiOCR_of_no_key (env : Env) (b64 : String) (fmt : OcrFormat)
    (hkey : env.apiKeyPresent = false) :
    Ocr.aiOCR env b64 fmt = none := by
  unfold Ocr.aiOCR
  rw [hkey]
  rfl

/-- Shape of `extract` when resolution succeeds and the provider stage
collapses to `null`. -/
theorem extract_provider_none (env : Env) (fmt : OcrFormat) (b64 : String)
    (hload : Ocr.loadImageBase64 env = Except.ok b64)
    (hnone : Ocr.aiOCR env b64 fmt = none) :
    Ocr.extract env fmt = (Except.ok JsValue.vnull,
      [Event.sourceResolution, Event.providerCall (getOCRPromptMessages b64 fmt)]) := by
  unfold Ocr.extract
  rw [hload]
  simp only [hnone]

/-- Shape of `extract` when the provider returns the empty string (the
JavaScript falsiness check `if (!ocrResult)` fires). -/
theorem extract_provider_empty (env : Env) (fmt : OcrFormat) (b64 : String)
    (hload : Ocr.loadImageBase64 env = Except.ok b64)
    (hsome : Ocr.aiOCR env b64 fmt = some "") :
    Ocr.extract env fmt = (Except.ok JsValue.vnull,
      [Event.sourceResolution, Event.providerCall (getOCRPromptMessages b64 fmt)]) := by
  unfold Ocr.extract
  rw [hload]
  simp only [hsome]
  rfl

/-- Shape of `extract` for format `json` on a non-empty raw response. -/
theorem extract_provider_json (env : Env) (raw b64 : String)
    (hload : Ocr.loadImageBase64 env = Except.ok b64)
    (hsome : Ocr.aiOCR env b64 OcrFormat.json = some raw)
    (hne : raw ≠ "") :
    Ocr.extract env OcrFormat.json =
      ((match jsonParse raw with
        | some v => Except.ok v
        | none => Except.error OcrError.jsonSyntaxError),
       [Event.sourceResolution,
        Event.providerCall (getOCRPromptMessages b64 OcrFormat.json),
        Event.jsonDecode raw]) := by
  unfold Ocr.extract
  rw [hload]
  simp only [hsome, if_neg hne]
  rfl

/-- Shape of `extract` for a non-`json` format on a non-empty raw
response: the raw string is passed through unchanged. -/
theorem extract_provider_passthrough (env : Env) (fmt : OcrFormat) (raw b64 : String)
    (hload : Ocr.loadImageBase64 env = Except.ok b64)
    (hsome : Ocr.aiOCR env b64 fmt = some raw)
    (hne : raw ≠ "") (hfmt : fmt ≠ OcrFormat.json) :
    Ocr.extract env fmt = (Except.ok (JsValue.vstr raw),
      [Event.sourceResolution, Event.providerCall (getOCRPromptMessages b64 fmt)]) := by
  unfold Ocr.extract
  rw [hload]
  simp only [hsome, if_neg hne, if_neg hfmt]

/-! ## Base64 round-trip -/

/-- `b64Val` inverts `b64Char` on six-bit values. -/
theorem b64Val_b64Char : ∀ n : Nat, n < 64 → b64Val (b64Char n) = n := by decide

/-- Alphabet characters are never the padding character. -/
theorem b64Char_ne_pad : ∀ n : Nat, n < 64 → b64Char n ≠ '=' := by decide

/-- Decoding inverts encoding on byte lists (bytes below 256). -/
theorem base64DecodeList_encodeList : ∀ l : List Nat, (∀ b ∈ l, b < 256) →
    base64DecodeList (base64EncodeList l) = l
  | [], _ => rfl
  | [b0], h => by
    have hb0 : b0 < 256 := h b0 (by simp)
    show base64DecodeList [b64Char (b0 / 4), b64Char (b0 % 4 * 16), '=', '='] = [b0]
    have e1 : base64DecodeList [b64Char (b0 / 4), b64Char (b0 % 4 * 16), '=', '='] =
        [b64Val (b64Char (b0 / 4)) * 4 + b64Val (b64Char (b0 % 4 * 16)) / 16] := by
      simp [base64DecodeList]
    rw [e1, b64Val_b64Char _ (by omega), b64Val_b64Char _ (by omega)]
    have : b0 / 4 * 4 + b0 % 4 * 16 / 16 = b0 := by omega
    rw [this]
  | [b0, b1], h => by
    have hb0 : b0 < 256 := h b0 (by simp)
    have hb1 : b1 < 256 := h b1 (by simp)
    show base64DecodeList [b64Char (b0 / 4), b64Char (b0 % 4 * 16 + b1 / 16),
        b64Char (b1 % 16 * 4), '='] = [b0, b1]
    have hc2 : b64Char (b1 % 16 * 4) ≠ '=' := b64Char_ne_pad _ (by omega)
    have e1 : base64DecodeList [b64Char (b0 / 4), b64Char (b0 % 4 * 16 + b1 / 16),
        b64Char (b1 % 16 * 4), '='] =
        [b64Val (b64Char (b0 / 4)) * 4 + b64Val (b64Char (b0 % 4 * 16 + b1 / 16)) / 16,
         b64Val (b64Char (b0 % 4 * 16 + b1 / 16)) % 16 * 16 +
           b64Val (b64Char (b1 % 16 * 4)) / 4] := by
      simp [base64DecodeList, hc2]
    rw [e1, b64Val_b64Char _ (by omega), b64Val_b64Char _ (by omega),
      b64Val_b64Char _ (by omega)]
    have h1 : b0 / 4 * 4 + (b0 % 4 * 16 + b1 / 16) / 16 = b0 := by omega
    have h2 : (b0 % 4 * 16 + b1 / 16) % 16 * 16 + b1 % 16 * 4 / 4 = b1 := by omega
    rw [h1, h2]
  | b0 :: b1 :: b2 :: rest, h => by
    have hb0 : b0 < 256 := h b0 (by simp)
    have hb1 : b1 < 256 := h b1 (by simp)
    have hb2 : b2 < 256 := h b2 (by simp)
    have ih : base64DecodeList (base64EncodeList rest) = rest :=
      base64DecodeList_encodeList rest (fun b hb => h b (by simp [hb]))
    have hc2 : b64Char (b1 % 16 * 4 + b2 / 64) ≠ '=' := b64Char_ne_pad _ (by omega)
    have hc3 : b64Char (b2 % 64) ≠ '=' := b64Char_ne_pad _ (by omega)
    show base64DecodeList (b64Char (b0 / 4) :: b64Char (b0 % 4 * 16 + b1 / 16) ::
        b64Char (b1 % 16 * 4 + b2 / 64) :: b64Char (b2 % 64) ::
        base64EncodeList rest) = b0 :: b1 :: b2 :: rest
    simp only [base64DecodeList]
    rw [if_neg hc2, if_neg hc3, ih,
      b64Val_b64Char _ (by omega), b64Val_b64Char _ (by omega),
      b64Val_b64Char _ (by omega), b64Val_b64Char _ (by omega)]
    have h1 : b0 / 4 * 4 + (b0 % 4 * 16 + b1 / 16) / 16 = b0 := by omega
    have h2 : (b0 % 4 * 16 + b1 / 16) % 16 * 16 + (b1 % 16 * 4 + b2 / 64) / 4 = b1 := by
      omega
    have h3 : (b1 % 16 * 4 + b2 / 64) % 4 * 64 + b2 % 64 = b2 := by omega
    rw [h1, h2, h3]

/-! ## Claims -/

/-- C1 (counterexample): the empty string is a non-null raw response that
is not valid JSON, yet for format `json` the pipeline returns the null
failure signal instead of failing with the structured-output error — the
falsiness check `if (!ocrResult)` intercepts `""` first. -/
theorem c1_empty_response_counterexample :
    jsonParse "" = none ∧
    (Ocr.extract envC1 OcrFormat.json).1 = Except.ok JsValue.vnull ∧
    (Ocr.extract envC1 OcrFormat.json).1 ≠ Except.error OcrError.jsonSyntaxError := by
  refine ⟨rfl, rfl, ?_⟩
  intro hcontra
  have : Except.ok JsValue.vnull = Except.error OcrError.jsonSyntaxError := hcontra
  exact Except.noConfusion this

/-- C1 (amended): for format `json` and a non-empty raw response string,
formatting succeeds with the decoded value exactly when the raw string is
valid JSON, and otherwise throws the `JSON.parse` syntax error (the
spec's `MalformedStructuredOutput`), an outcome distinct from the null
failure signal. -/
theorem extract_json_succeeds_iff_valid (env : Env) (raw b64 : String)
    (hkey : env.apiKeyPresent = true) (hresp : env.genObject = some raw)
    (hne : raw ≠ "") (hload : Ocr.loadImageBase64 env = Except.ok b64) :
    (∀ v, jsonParse raw = some v → (Ocr.extract env OcrFormat.json).1 = Except.ok v) ∧
    (jsonParse raw = none →
      (Ocr.extract env OcrFormat.json).1 = Except.error OcrError.jsonSyntaxError) ∧
    (Except.error OcrError.jsonSyntaxError ≠
      (Except.ok JsValue.vnull : Except OcrError JsValue)) := by
  have hsome : Ocr.aiOCR env b64 OcrFormat.json = some raw := by
    rw [aiOCR_of_key env b64 OcrFormat.json hkey, hresp]
  have hshape := extract_provider_json env raw b64 hload hsome hne
  refine ⟨?_, ?_, fun hcontra => Except.noConfusion hcontra⟩
  · intro v hv
    rw [hshape]
    simp [hv]
  · intro hv
    rw [hshape]
    simp [hv]

/-- C1 (witness): on the concrete malformed raw response the formatting
step throws the syntax error. -/
theorem c1_witness :
    jsonParse "\x7bnot valid json" = none ∧
    (Ocr.extract envC1w OcrFormat.json).1 = Except.error OcrError.jsonSyntaxError :=
  ⟨rfl,
    (extract_json_succeeds_iff_valid envC1w "\x7bnot valid json" "SA==" rfl rfl
      (by decide) rfl).2.1 rfl⟩

/-- C2: if source resolution fails, the provider is never invoked — the
trace of the call contains no provider-call event. -/
theorem extract_no_provider_call_on_resolution_failure (env : Env) (fmt : OcrFormat)
    (e : OcrError) (h : Ocr.loadImageBase64 env = Except.error e) :
    ∀ msgs, Event.providerCall msgs ∉ (Ocr.extract env fmt).2 := by
  intro msgs
  rw [extract_load_error env fmt e h]
  simp

/-- C2 (witness): concrete failing fetch, no provider call in the trace. -/
theorem c2_witness :
    Event.providerCall (getOCRPromptMessages "" OcrFormat.text) ∉
      (Ocr.extract envC2 OcrFormat.text).2 :=
  extract_no_provider_call_on_resolution_failure envC2 OcrFormat.text
    (OcrError.fetchError
      "Failed to fetch image from URL: getaddrinfo ENOTFOUND nonexistent.example")
    rfl (getOCRPromptMessages "" OcrFormat.text)

/-- C3: any failure of the provider call yields `null` from the client
stage, so `extract` resolves to `null` (no exception) for every format. -/
theorem extract_null_on_provider_failure (env : Env) (fmt : OcrFormat) (b64 : String)
    (hload : Ocr.loadImageBase64 env = Except.ok b64)
    (hfail : Ocr.aiOCR env b64 fmt = none) :
    (Ocr.extract env fmt).1 = Except.ok JsValue.vnull := by
  rw [extract_provider_none env fmt b64 hload hfail]

/-- C3 (witness): concrete provider failure resolves to `null`. -/
theorem c3_witness : (Ocr.extract envC3 OcrFormat.markdown).1 = Except.ok JsValue.vnull :=
  extract_null_on_provider_failure envC3 OcrFormat.markdown "SA==" rfl rfl

/-- C4 (counterexample): with credentials absent the pipeline does not
fail fast — it still resolves and encodes the source, still reaches the
provider-call stage, and resolves to the null failure signal instead of
raising a configuration error before extraction. -/
theorem c4_no_fail_fast_counterexample :
    envC4.apiKeyPresent = false ∧
    Event.sourceResolution ∈ (Ocr.extract envC4 OcrFormat.text).2 ∧
    Event.providerCall (getOCRPromptMessages "SA==" OcrFormat.text) ∈
      (Ocr.extract envC4 OcrFormat.text).2 ∧
    (Ocr.extract envC4 OcrFormat.text).1 = Except.ok JsValue.vnull := by
  have htrace : (Ocr.extract envC4 OcrFormat.text).2 =
      [Event.sourceResolution,
       Event.providerCall (getOCRPromptMessages "SA==" OcrFormat.text)] := rfl
  refine ⟨rfl, ?_, ?_, rfl⟩ <;> rw [htrace] <;> simp

/-- C4 (amended): absent credentials are detected only lazily — source
resolution and encoding complete, the provider stage is invoked and its
rejection collapses to `null`, so `extract` resolves to the provider
failure signal rather than raising a configuration error first. -/
theorem missing_credentials_lazy_null (env : Env) (fmt : OcrFormat) (b64 : String)
    (hkey : env.apiKeyPresent = false)
    (hload : Ocr.loadImageBase64 env = Except.ok b64) :
    (Ocr.extract env fmt).1 = Except.ok JsValue.vnull ∧
    Event.sourceResolution ∈ (Ocr.extract env fmt).2 ∧
    Event.providerCall (getOCRPromptMessages b64 fmt) ∈ (Ocr.extract env fmt).2 := by
  have hshape := extract_provider_none env fmt b64 hload (aiOCR_of_no_key env b64 fmt hkey)
  rw [hshape]
  exact ⟨rfl, by simp, by simp⟩

/-- C4 (witness): concrete run with credentials absent. -/
theorem c4_witness :
    (Ocr.extract envC4 OcrFormat.json).1 = Except.ok JsValue.vnull ∧
    Event.sourceResolution ∈ (Ocr.extract envC4 OcrFormat.json).2 ∧
    Event.providerCall (getOCRPromptMessages "SA==" OcrFormat.json) ∈
      (Ocr.extract envC4 OcrFormat.json).2 :=
  missing_credentials_lazy_null envC4 OcrFormat.json "SA==" rfl rfl

/-- C5: a source-resolution or encoding failure propagates out of
`extract` as the raised error itself and terminates the call, whereas a
provider failure after successful resolution is represented as a `null`
result rather than an exception. -/
theorem resolution_failure_raises (env : Env) (fmt : OcrFormat) (e : OcrError)
    (h : Ocr.loadImageBase64 env = Except.error e) :
    (Ocr.extract env fmt).1 = Except.error e ∧
    (∀ env2 fmt2 b64, Ocr.loadImageBase64 env2 = Except.ok b64 →
      Ocr.aiOCR env2 b64 fmt2 = none →
      (Ocr.extract env2 fmt2).1 = Except.ok JsValue.vnull) := by
  constructor
  · rw [extract_load_error env fmt e h]
  · intro env2 fmt2 b64 h1 h2
    rw [extract_provider_none env2 fmt2 b64 h1 h2]

/-- C5 (witness): the concrete read failure surfaces as the thrown
`FileReadError` with the source's message prefix. -/
theorem c5_witness :
    (Ocr.extract envC5 OcrFormat.json).1 =
      Except.error (OcrError.fileReadError
        "Failed to read local image file: ENOENT: no such file or directory") :=
  (resolution_failure_raises envC5 OcrFormat.json
    (OcrError.fileReadError
      "Failed to read local image file: ENOENT: no such file or directory") rfl).1

/-- C6 (counterexample): the empty string is a non-null raw response, but
for format `text` the pipeline returns `null`, not the string itself —
the falsiness check intercepts it, so the formatting step is not the
identity on all non-null strings. -/
theorem c6_empty_string_counterexample :
    (Ocr.extract envC6 OcrFormat.text).1 = Except.ok JsValue.vnull ∧
    (Except.ok JsValue.vnull : Except OcrError JsValue) ≠ Except.ok (JsValue.vstr "") := by
  refine ⟨rfl, ?_⟩
  intro hcontra
  exact JsValue.noConfusion (Except.ok.inj hcontra)

/-- C6 (amended): for formats `text` and `markdown` and a non-empty raw
response string, `extract` returns exactly that string unchanged. -/
theorem extract_text_markdown_identity (env : Env) (fmt : OcrFormat) (raw b64 : String)
    (hfmt : fmt = OcrFormat.text ∨ fmt = OcrFormat.markdown)
    (hkey : env.apiKeyPresent = true) (hresp : env.genObject = some raw)
    (hne : raw ≠ "") (hload : Ocr.loadImageBase64 env = Except.ok b64) :
    (Ocr.extract env fmt).1 = Except.ok (JsValue.vstr raw) := by
  have hsome : Ocr.aiOCR env b64 fmt = some raw := by
    rw [aiOCR_of_key env b64 fmt hkey, hresp]
  have hjson : fmt ≠ OcrFormat.json := by
    rcases hfmt with h | h <;> subst h <;> intro hcontra <;> exact OcrFormat.noConfusion hcontra
  rw [extract_provider_passthrough env fmt raw b64 hload hsome hne hjson]

/-- C6 (witness): concrete markdown run passes the raw string through. -/
theorem c6_witness :
    (Ocr.extract envC6w OcrFormat.markdown).1 = Except.ok (JsValue.vstr "hello world") :=
  extract_text_markdown_identity envC6w OcrFormat.markdown "hello world" "SA=="
    (Or.inr rfl) rfl rfl (by decide) rfl

/-- C7: the encoder is a total function on byte sequences and decoding
its output recovers the original bytes exactly (round-trip law). -/
theorem encoder_roundtrip (bytes : List Nat) (h : ∀ b ∈ bytes, b < 256) :
    base64Decode (base64Encode bytes) = bytes :=
  base64DecodeList_encodeList bytes h

/-- C7 (witness): round trip on a concrete byte sequence covering all
three padding shapes via its length. -/
theorem c7_witness :
    base64Decode (base64Encode [0, 127, 255, 10, 77]) = [0, 127, 255, 10, 77] :=
  encoder_roundtrip [0, 127, 255, 10, 77] (by decide)

/-- C8: the prompt builder yields exactly two messages — a system
instruction whose text is the same for every output format, and a user
message whose directive text quotes the requested format's name and the
schema field `response`, followed by the embedded image. -/
theorem getOCRPromptMessages_structure (imageBase64 : String) (format : OcrFormat) :
    (getOCRPromptMessages imageBase64 format).length = 2 ∧
    (getOCRPromptMessages imageBase64 format).head? =
      some (CoreMessage.mk "system" (MessageContent.text Prompts.OCR.system)) ∧
    (∀ f2 img2, (getOCRPromptMessages img2 f2).head? =
      (getOCRPromptMessages imageBase64 format).head?) ∧
    (getOCRPromptMessages imageBase64 format).getLast? =
      some (CoreMessage.mk "user" (MessageContent.parts
        [ContentPart.text (Prompts.OCR.user format), ContentPart.image imageBase64])) ∧
    (∃ pre post, Prompts.OCR.user format =
      pre ++ ("\x27" ++ ocrFormatString format ++ "\x27") ++ post) ∧
    (∃ pre post, Prompts.OCR.user format = pre ++ "\x27response\x27" ++ post) := by
  refine ⟨rfl, rfl, fun f2 img2 => rfl, rfl, ?_, ?_⟩
  · exact ⟨Prompts.OCR.userPre,
      Prompts.OCR.userMid ++ "\x27response\x27" ++ Prompts.OCR.userTail, by
        cases format <;> rfl⟩
  · exact ⟨Prompts.OCR.userPre ++ "\x27" ++ ocrFormatString format ++ "\x27" ++
      Prompts.OCR.userMid, Prompts.OCR.userTail, by cases format <;> rfl⟩

/-- C9: a schema-valid empty-string response makes `extract` return
`null` for every output format (indistinguishable at the interface from
a provider failure), the raw string is never handed to `JSON.parse`, and
no structured-output error can arise from it. -/
theorem extract_empty_response_null (env : Env) (fmt : OcrFormat) (b64 : String)
    (hkey : env.apiKeyPresent = true) (hresp : env.genObject = some "")
    (hload : Ocr.loadImageBase64 env = Except.ok b64) :
    (Ocr.extract env fmt).1 = Except.ok JsValue.vnull ∧
    (∀ raw, Event.jsonDecode raw ∉ (Ocr.extract env fmt).2) ∧
    (Ocr.extract env fmt).1 ≠ Except.error OcrError.jsonSyntaxError := by
  have hsome : Ocr.aiOCR env b64 fmt = some "" := by
    rw [aiOCR_of_key env b64 fmt hkey, hresp]
  rw [extract_provider_empty env fmt b64 hload hsome]
  refine ⟨rfl, by simp, ?_⟩
  intro hcontra
  exact Except.noConfusion hcontra

/-- C9 (witness): concrete empty response under format `json`: result is
`null` and `JSON.parse` is never invoked on the empty string. -/
theorem c9_witness :
    (Ocr.extract envC9 OcrFormat.json).1 = Except.ok JsValue.vnull ∧
    Event.jsonDecode "" ∉ (Ocr.extract envC9 OcrFormat.json).2 :=
  ⟨(extract_empty_response_null envC9 OcrFormat.json "SA==" rfl rfl rfl).1,
   (extract_empty_response_null envC9 OcrFormat.json "SA==" rfl rfl rfl).2.1 ""⟩

/-- C10: for format `json`, a non-empty raw response that parses as JSON
makes `extract` return exactly the decoded value, whatever JSON value it
is — not only string-keyed objects. -/
theorem extract_json_decoded_value (env : Env) (raw b64 : String) (v : JsValue)
    (hkey : env.apiKeyPresent = true) (hresp : env.genObject = some raw)
    (hne : raw ≠ "") (hparse : jsonParse raw = some v)
    (hload : Ocr.loadImageBase64 env = Except.ok b64) :
    (Ocr.extract env OcrFormat.json).1 = Except.ok v := by
  have hsome : Ocr.aiOCR env b64 OcrFormat.json = some raw := by
    rw [aiOCR_of_key env b64 OcrFormat.json hkey, hresp]
  rw [extract_provider_json env raw b64 hload hsome hne]
  simp [hparse]

/-- C10 (witness): the raw string `null` decodes to the JavaScript value
`null`, which is exactly the value `extract` resolves to when the
provider call fails — the two runs are indistinguishable. -/
theorem c10_witness :
    (Ocr.extract envC10 OcrFormat.json).1 = Except.ok JsValue.vnull ∧
    (Ocr.extract envC10f OcrFormat.json).1 = Except.ok JsValue.vnull :=
  ⟨extract_json_decoded_value envC10 "null" "SA==" JsValue.vnull rfl rfl
    (by decide) rfl rfl, rfl⟩
